import Mathlib

/-!
# Verification of the Opportunity Analysis dashboard core pipeline

Shallow embedding of the core data pipeline of `src/opp.py`:
the static LOB rule table and `map_lob`, the producer-name resolver
`get_producer_names`, and the report generator `connect_sf_and_query`.

External Salesforce calls are modelled as an environment record `SFEnv`
holding the result of each of the three aggregation queries and the
batched producer lookup; each result is an `Except String _` (Python
exception = `Except.error`).  Loosely-typed dictionary rows are modelled
as structures with `Option` fields: `none` is an absent key, and
`rec.get(k, d)` is `Option.getD`.  Python `dict` is modelled as an
association list with overwrite-on-insert (`dictInsert`) and
first-match lookup (`dictFind?` / `dictGetD`).
-/

set_option autoImplicit false

namespace OppAnalysis

/-- The static rule table `LOB_MAPPING` of `src/opp.py` (lines 49-99),
as a key-value list in source order. -/
def LOB_MAPPING : List (String × String) :=
  [ ("Homeowners", "Homeowners"),
    ("Dwelling Fire - PL", "Homeowners"),
    ("Mobile Homeowners", "Homeowners"),
    ("Wind Only - PL", "Homeowners"),
    ("Personal Auto", "Personal Auto"),
    ("Motorcycle/ATV", "Personal Auto"),
    ("Motorhome", "Personal Auto"),
    ("Recreational Vehicle", "Personal Auto"),
    ("Travel Trailer", "Personal Auto"),
    ("Golf Cart", "Personal Auto"),
    ("Watercraft", "Boat"),
    ("Charter Watercraft", "Boat"),
    ("Yacht", "Boat"),
    ("Burnboat", "Boat"),
    ("Boat", "Boat"),
    ("Umbrella", "Umbrella"),
    ("Commercial Umbrella", "Umbrella"),
    ("Inland Marine - PL", "Inland Marine"),
    ("Inland Marine - CL", "Inland Marine"),
    ("Commercial Package", "Commercial"),
    ("Builders Risk/Installation - PL", "Commercial"),
    ("Builders Risk/Installation - CL", "Commercial"),
    ("Business Owners", "Commercial"),
    ("Commercial Auto", "Commercial"),
    ("Commercial Property", "Commercial"),
    ("Directors & Officers", "Commercial"),
    ("Employment Practice Liability", "Commercial"),
    ("Errors & Omissions", "Commercial"),
    ("General Liability", "Commercial"),
    ("Liquor Liability", "Commercial"),
    ("Marine Package", "Commercial"),
    ("Wind Only - CL", "Commercial"),
    ("Flood - PL", "Other"),
    ("Personal Liability", "Other"),
    ("Life", "Other") ]

/-- `LOB_MAPPING.get(type_value, "Other")`: first (unique) matching key,
default `"Other"`.  Source: `map_lob`, lines 101-103. -/
def map_lob (type_value : String) : String :=
  ((LOB_MAPPING.find? (fun p => p.1 = type_value)).map Prod.snd).getD "Other"

/-! ## Python `dict` model -/

/-- `m[k] = v` on a Python dict: overwrite the existing entry for `k`,
or append a fresh one. -/
def dictInsert (m : List (String × String)) (k v : String) :
    List (String × String) :=
  if m.any (fun p => p.1 = k) then
    m.map (fun p => if p.1 = k then (k, v) else p)
  else
    m ++ [(k, v)]

/-- `m.get(k)`: value of the entry for `k`, if any. -/
def dictFind? (m : List (String × String)) (k : String) : Option String :=
  (m.find? (fun p => p.1 = k)).map Prod.snd

/-- `m.get(k, d)`: value of the entry for `k`, default `d`. -/
def dictGetD (m : List (String × String)) (k d : String) : String :=
  (dictFind? m k).getD d

/-! ## Producer resolver (`get_producer_names`, lines 105-133) -/

/-- The nested `InternalUser` relationship of a `Producer` record:
two optional name components. -/
structure InternalUserRec where
  FirstName : Option String
  LastName : Option String
  deriving DecidableEq

/-- A record returned by the `Producer` lookup query.  `Id` is always
selected by the query, so it is modelled as present. -/
structure ProducerRec where
  Id : String
  InternalUser : Option InternalUserRec
  deriving DecidableEq

/-- Python's `str.strip()`: remove leading and trailing whitespace. -/
def pyStrip (s : String) : String :=
  ⟨((s.data.dropWhile Char.isWhitespace).reverse.dropWhile Char.isWhitespace).reverse⟩

/-- The display name computed for one `Producer` record (loop body of
`get_producer_names`, lines 123-131): `internal_user = rec.get("InternalUser") or {}`,
`first`/`last` default to `""`, `full_name = f"{first} {last}".strip()`,
sentinel when the stripped result is empty. -/
def producer_full_name (rec : ProducerRec) : String :=
  let internal_user := rec.InternalUser.getD { FirstName := none, LastName := none }
  let first := internal_user.FirstName.getD ""
  let last := internal_user.LastName.getD ""
  let full_name := pyStrip (first ++ " " ++ last)
  if full_name = "" then "Name Not Provided" else full_name

/-- The `mapping` dict built from the lookup results
(`mapping[pid] = full_name`, lines 122-132). -/
def build_producer_mapping (recs : List ProducerRec) : List (String × String) :=
  recs.foldl (fun m rec => dictInsert m rec.Id (producer_full_name rec)) []

/-- `get_producer_names(sf, producer_ids)` (lines 105-133), with the
external `sf.query_all` call abstracted as `lookup`.  The second
component counts external lookup calls performed: the early return on an
empty id list issues none, every other path issues exactly one. -/
def get_producer_names
    (lookup : List String → Except String (List ProducerRec))
    (producer_ids : List String) :
    Except String (List (String × String)) × Nat :=
  if producer_ids.isEmpty then (Except.ok [], 0)
  else
    match lookup producer_ids with
    | Except.ok results => (Except.ok (build_producer_mapping results), 1)
    | Except.error e => (Except.error e, 1)

/-! ## Query result rows and report rows (`connect_sf_and_query`, lines 135-227) -/

/-- A row of query 1 (`GROUP BY Type`): optional `Type` and `oppCount`. -/
structure Q1Rec where
  TypeField : Option String
  oppCount : Option Nat
  deriving DecidableEq

/-- A row of query 2 (`GROUP BY Producer__c, Type`). -/
structure Q2Rec where
  Producer__c : Option String
  TypeField : Option String
  oppCount : Option Nat
  deriving DecidableEq

/-- The nested `Owner` relationship of a query-3 row. -/
structure OwnerRec where
  Name : Option String
  deriving DecidableEq

/-- A row of query 3 (`GROUP BY Owner.Name, Type`). -/
structure Q3Rec where
  Owner : Option OwnerRec
  TypeField : Option String
  oppCount : Option Nat
  deriving DecidableEq

/-- A row of `lob_df` (`lob_data.append({...})`, lines 165-169). -/
structure LOBRow where
  TypeField : String
  LOB_Category : String
  Count : Nat
  deriving DecidableEq

/-- A row of `producer_df` (`producer_data.append({...})`, lines 202-207
and 215-220). -/
structure ProducerRow where
  Producer : String
  TypeField : String
  LOB_Category : String
  Count : Nat
  deriving DecidableEq

/-- Loop body over query-1 records (lines 161-169): `picklist_val =
rec.get("Type", "Other")`, `count_val = rec.get("oppCount", 0)`. -/
def lob_row (rec : Q1Rec) : LOBRow :=
  let picklist_val := rec.TypeField.getD "Other"
  { TypeField := picklist_val
    LOB_Category := map_lob picklist_val
    Count := rec.oppCount.getD 0 }

/-- Loop body over query-2 records (lines 196-207): display name from the
resolved mapping with sentinel default (`producer_names.get(prod_id,
"Name Not Provided")`; `prod_id = None` is never a key of the mapping). -/
def producer_row_q2 (producer_names : List (String × String)) (rec : Q2Rec) :
    ProducerRow :=
  let producer_name :=
    match rec.Producer__c with
    | none => "Name Not Provided"
    | some prod_id => dictGetD producer_names prod_id "Name Not Provided"
  let picklist_val := rec.TypeField.getD "Other"
  { Producer := producer_name
    TypeField := picklist_val
    LOB_Category := map_lob picklist_val
    Count := rec.oppCount.getD 0 }

/-- Loop body over query-3 records (lines 209-220): `owner =
rec.get("Owner") or {}`, `owner.get("Name", "Name Not Provided")`. -/
def producer_row_q3 (rec : Q3Rec) : ProducerRow :=
  let owner := rec.Owner.getD { Name := none }
  let producer_name := owner.Name.getD "Name Not Provided"
  let picklist_val := rec.TypeField.getD "Other"
  { Producer := producer_name
    TypeField := picklist_val
    LOB_Category := map_lob picklist_val
    Count := rec.oppCount.getD 0 }

/-- The distinct truthy `Producer__c` ids of query 2's results
(line 191, a set comprehension filtering `None` and `""`); set iteration
order is modelled as first-occurrence order (`dedup`). -/
def gather_producer_ids (recs : List Q2Rec) : List String :=
  ((recs.filterMap (fun rec => rec.Producer__c)).filter (fun s => s ≠ "")).dedup

/-- The external world of one report run: results of the three
aggregation queries, and the producer lookup as a function of the id
list it is issued with.  `Except.error` models a raised exception. -/
structure SFEnv where
  q1 : Except String (List Q1Rec)
  q2 : Except String (List Q2Rec)
  q3 : Except String (List Q3Rec)
  producerLookup : List String → Except String (List ProducerRec)

/-- `connect_sf_and_query` (lines 135-227): the `try` block runs the
three queries and the producer lookup in order and assembles the two
tables; the first exception lands in the `except` arm, which returns two
empty DataFrames. -/
def connect_sf_and_query (env : SFEnv) : List LOBRow × List ProducerRow :=
  match env.q1 with
  | Except.error _ => ([], [])
  | Except.ok type_results =>
    match env.q2 with
    | Except.error _ => ([], [])
    | Except.ok results_with_prod =>
      match env.q3 with
      | Except.error _ => ([], [])
      | Except.ok results_without_prod =>
        match (get_producer_names env.producerLookup
                (gather_producer_ids results_with_prod)).1 with
        | Except.error _ => ([], [])
        | Except.ok producer_names =>
          (type_results.map lob_row,
           results_with_prod.map (producer_row_q2 producer_names)
             ++ results_without_prod.map producer_row_q3)

/-- `lob_df.groupby("LOB_Category")["Count"].sum()` (line 247): one row
per distinct category with the summed counts.  (pandas sorts the group
keys; the key order is irrelevant to the properties proved here, so
first-occurrence order is used.) -/
def grouped_lob (rows : List LOBRow) : List (String × Nat) :=
  ((rows.map (fun r => r.LOB_Category)).dedup).map
    (fun c => (c, ((rows.filter (fun r => r.LOB_Category = c)).map
      (fun r => r.Count)).sum))

/-! ## Date-range filter (lines 147-150)

`start_date.strftime('%Y-%m-%dT00:00:00Z')` and
`end_date.strftime('%Y-%m-%dT23:59:59Z')` produce UTC datetime literals
whose fields are the calendar date plus a fixed time of day; the SOQL
filter `CreatedDate >= lower AND CreatedDate <= upper` compares
datetimes chronologically, modelled as lexicographic order on the
(year, month, day, hour, minute, second) fields. -/

/-- A calendar date, as selected in the UI. -/
structure SFDate where
  year : Nat
  month : Nat
  day : Nat
  deriving DecidableEq

/-- A UTC timestamp (`CreatedDate` value). -/
structure SFDateTime where
  year : Nat
  month : Nat
  day : Nat
  hour : Nat
  minute : Nat
  second : Nat
  deriving DecidableEq

/-- Chronological (lexicographic) order on timestamps. -/
def dtLE (a b : SFDateTime) : Prop :=
  a.year < b.year ∨ (a.year = b.year ∧
    (a.month < b.month ∨ (a.month = b.month ∧
      (a.day < b.day ∨ (a.day = b.day ∧
        (a.hour < b.hour ∨ (a.hour = b.hour ∧
          (a.minute < b.minute ∨ (a.minute = b.minute ∧
            a.second ≤ b.second)))))))))

/-- Chronological (lexicographic) order on dates. -/
def dateLE (a b : SFDate) : Prop :=
  a.year < b.year ∨ (a.year = b.year ∧
    (a.month < b.month ∨ (a.month = b.month ∧ a.day ≤ b.day)))

/-- The lower bound literal built on line 148: the start date at
`00:00:00` UTC. -/
def start_date_str (d : SFDate) : SFDateTime :=
  ⟨d.year, d.month, d.day, 0, 0, 0⟩

/-- The upper bound literal built on line 149: the end date at
`23:59:59` UTC. -/
def end_date_str (d : SFDate) : SFDateTime :=
  ⟨d.year, d.month, d.day, 23, 59, 59⟩

/-- The predicate denoted by `date_filter` (line 150): `CreatedDate >=
start_date_str AND CreatedDate <= end_date_str`. -/
def date_filter (start_date end_date : SFDate) (t : SFDateTime) : Prop :=
  dtLE (start_date_str start_date) t ∧ dtLE t (end_date_str end_date)

instance : DecidablePred (fun p : SFDateTime × SFDateTime => dtLE p.1 p.2) :=
  fun p => by unfold dtLE; infer_instance

instance (a b : SFDateTime) : Decidable (dtLE a b) := by
  unfold dtLE; infer_instance

instance (a b : SFDate) : Decidable (dateLE a b) := by
  unfold dateLE; infer_instance

instance (s e : SFDate) (t : SFDateTime) : Decidable (date_filter s e t) := by
  unfold date_filter; infer_instance

/-- The seven normalized categories: the set of values of `LOB_MAPPING`
together with the default `"Other"`. -/
def LOB_CATEGORIES : List String :=
  ["Homeowners", "Personal Auto", "Boat", "Umbrella", "Inland Marine",
   "Commercial", "Other"]

/-- Scenario: query 2 returns one row for producer `"P1"`, and the
backing lookup resolves no ids at all (returns no records). -/
def envUnresolvedProducer : SFEnv :=
  { q1 := Except.ok []
    q2 := Except.ok
      [{ Producer__c := some "P1", TypeField := some "Boat", oppCount := some 3 }]
    q3 := Except.ok []
    producerLookup := fun _ => Except.ok [] }

/-- Scenario: query 1 raises, the other calls would succeed. -/
def envQuery1Failure : SFEnv :=
  { q1 := Except.error "boom"
    q2 := Except.ok []
    q3 := Except.ok []
    producerLookup := fun _ => Except.ok [] }

/-- Scenario: one query-2 row with a resolvable producer and one
query-3 row with a denormalized owner name. -/
def envMixedRows : SFEnv :=
  { q1 := Except.ok []
    q2 := Except.ok
      [{ Producer__c := some "P9", TypeField := some "Yacht", oppCount := some 2 }]
    q3 := Except.ok
      [{ Owner := some { Name := some "Alice Smith" }, TypeField := some "Life",
         oppCount := some 1 }]
    producerLookup := fun _ => Except.ok
      [{ Id := "P9", InternalUser := some { FirstName := some "Jane",
                                            LastName := some "Doe" } }] }

/-- Scenario: a single query-1 row of a known type, empty queries 2
and 3. -/
def envSingleLOBRow : SFEnv :=
  { q1 := Except.ok [{ TypeField := some "Yacht", oppCount := some 1 }]
    q2 := Except.ok []
    q3 := Except.ok []
    producerLookup := fun _ => Except.ok [] }

/-! ## Helper lemmas -/

/-- In a key-value list with pairwise-distinct keys, `find?` on a key
present in the list returns exactly that entry. -/
lemma find?_key_eq_of_mem {α β : Type} [DecidableEq α]
    (l : List (α × β)) (k : α) (v : β)
    (hnd : (l.map Prod.fst).Nodup) (hmem : (k, v) ∈ l) :
    l.find? (fun p => p.1 = k) = some (k, v) := by
  induction l with
  | nil => cases hmem
  | cons p rest ih =>
    rw [List.map_cons, List.nodup_cons] at hnd
    rcases List.mem_cons.mp hmem with h | h
    · subst h
      exact List.find?_cons_of_pos _ (by simp)
    · have hpk : p.1 ≠ k := fun he =>
        hnd.1 (he ▸ List.mem_map.mpr ⟨(k, v), h, rfl⟩)
      rw [List.find?_cons_of_neg _ (by simp [hpk])]
      exact ih hnd.2 h

/-- Inserting a key no entry of `m` has appends a fresh entry. -/
lemma dictInsert_append (m : List (String × String)) (k v : String)
    (h : ∀ p ∈ m, p.1 ≠ k) : dictInsert m k v = m ++ [(k, v)] := by
  have hany : ¬(m.any (fun p => p.1 = k) = true) := by
    intro hcon
    obtain ⟨p, hp, he⟩ := List.any_eq_true.mp hcon
    exact h p hp (of_decide_eq_true he)
  unfold dictInsert
  rw [if_neg hany]

/-- With pairwise-distinct record ids, the `mapping` dict built by the
resolver loop is just the list of (id, display name) pairs. -/
lemma build_producer_mapping_eq_map :
    ∀ (recs : List ProducerRec) (m : List (String × String)),
      (recs.map (fun r => r.Id)).Nodup →
      (∀ r ∈ recs, ∀ p ∈ m, p.1 ≠ r.Id) →
      recs.foldl (fun m rec => dictInsert m rec.Id (producer_full_name rec)) m =
        m ++ recs.map (fun r => (r.Id, producer_full_name r)) := by
  intro recs
  induction recs with
  | nil =>
    intro m _ _
    simp
  | cons rec rest ih =>
    intro m hnd hdis
    rw [List.map_cons, List.nodup_cons] at hnd
    rw [List.foldl_cons,
        dictInsert_append m rec.Id _
          (fun p hp => hdis rec (List.mem_cons_self _ _) p hp)]
    have hdis' : ∀ r ∈ rest, ∀ p ∈ m ++ [(rec.Id, producer_full_name rec)],
        p.1 ≠ r.Id := by
      intro r hr p hp
      rcases List.mem_append.mp hp with hpm | hpe
      · exact hdis r (List.mem_cons_of_mem _ hr) p hpm
      · have hpe' : p = (rec.Id, producer_full_name rec) := by simpa using hpe
        subst hpe'
        intro he
        exact hnd.1 (by
          rw [show rec.Id = r.Id from he]
          exact List.mem_map.mpr ⟨r, hr, rfl⟩)
    rw [ih (m ++ [(rec.Id, producer_full_name rec)]) hnd.2 hdis']
    simp

/-- Every key of `dictInsert m k v` is a key of `m` or is `k`. -/
lemma dictInsert_keys {m : List (String × String)} {k v x : String}
    (hx : x ∈ (dictInsert m k v).map Prod.fst) :
    x ∈ m.map Prod.fst ∨ x = k := by
  obtain ⟨p, hp, he⟩ := List.mem_map.mp hx
  subst he
  unfold dictInsert at hp
  by_cases h : (m.any (fun q => q.1 = k) = true)
  · rw [if_pos h] at hp
    obtain ⟨q, hq, he⟩ := List.mem_map.mp hp
    by_cases hqk : q.1 = k
    · rw [if_pos hqk] at he
      right
      rw [← he]
    · rw [if_neg hqk] at he
      left
      rw [← he]
      exact List.mem_map_of_mem _ hq
  · rw [if_neg h] at hp
    rcases List.mem_append.mp hp with h1 | h2
    · left
      exact List.mem_map_of_mem _ h1
    · right
      have : p = (k, v) := by simpa using h2
      rw [this]

/-- Every key of the built resolver mapping is the id of some record of
the lookup result. -/
lemma build_producer_mapping_keys :
    ∀ (recs : List ProducerRec) (m : List (String × String))
      (p : String × String),
      p ∈ recs.foldl (fun m rec => dictInsert m rec.Id (producer_full_name rec)) m →
      p.1 ∈ m.map Prod.fst ∨ p.1 ∈ recs.map (fun r => r.Id) := by
  intro recs
  induction recs with
  | nil =>
    intro m p hp
    left
    exact List.mem_map_of_mem _ hp
  | cons rec rest ih =>
    intro m p hp
    rw [List.foldl_cons] at hp
    rcases ih _ p hp with h | h
    · rcases dictInsert_keys h with h0 | h0
      · left
        exact h0
      · right
        rw [List.map_cons, h0]
        exact List.mem_cons_self _ _
    · right
      rw [List.map_cons]
      exact List.mem_cons_of_mem _ h

/-- A list's mapped sum splits along any Boolean predicate. -/
lemma sum_map_filter_add {α : Type} (p : α → Bool) (f : α → Nat) (l : List α) :
    ((l.filter p).map f).sum + ((l.filter (fun a => !p a)).map f).sum =
      (l.map f).sum := by
  induction l with
  | nil => rfl
  | cons a t ih =>
    cases hp : p a <;> simp [List.filter_cons, hp] <;> omega

/-- Grouping a list under pairwise-distinct keys that cover it
preserves the mapped sum. -/
lemma sum_map_groups {α : Type} (key : α → String) (f : α → Nat) :
    ∀ (ks : List String) (l : List α), ks.Nodup → (∀ a ∈ l, key a ∈ ks) →
      (ks.map (fun k => ((l.filter (fun a => key a = k)).map f).sum)).sum =
        (l.map f).sum := by
  intro ks
  induction ks with
  | nil =>
    intro l _ hcov
    have hl : l = [] :=
      List.eq_nil_iff_forall_not_mem.mpr (fun a ha => by cases hcov a ha)
    subst hl
    rfl
  | cons k ks ih =>
    intro l hnd hcov
    have hnd' := List.nodup_cons.mp hnd
    rw [List.map_cons, List.sum_cons]
    have htail : ∀ k' ∈ ks,
        l.filter (fun a => key a = k') =
          (l.filter (fun a => !(key a = k))).filter (fun a => key a = k') := by
      intro k' hk'
      have hk'k : k' ≠ k := fun he => hnd'.1 (he ▸ hk')
      rw [List.filter_filter]
      apply List.filter_congr
      intro a _
      by_cases h : key a = k'
      · simp [h, hk'k]
      · simp [h]
    have hcov' : ∀ a ∈ l.filter (fun a => !(key a = k)), key a ∈ ks := by
      intro a ha
      have hmem := List.mem_filter.mp ha
      have hne : key a ≠ k := by simpa using hmem.2
      rcases List.mem_cons.mp (hcov a hmem.1) with h | h
      · exact absurd h hne
      · exact h
    have hmaps :
        ks.map (fun k' => ((l.filter (fun a => key a = k')).map f).sum) =
          ks.map (fun k' => (((l.filter (fun a => !(key a = k))).filter
            (fun a => key a = k')).map f).sum) :=
      List.map_congr_left (fun k' hk' => by rw [htail k' hk'])
    rw [hmaps, ih (l.filter (fun a => !(key a = k))) hnd'.2 hcov',
        ← sum_map_filter_add (fun a => key a = k) f l]

/-- Every value `map_lob` can return is one of the seven categories. -/
lemma map_lob_mem_categories (s : String) : map_lob s ∈ LOB_CATEGORIES := by
  unfold map_lob
  cases hf : LOB_MAPPING.find? (fun p => p.1 = s) with
  | none => decide
  | some p =>
    have hp : p ∈ LOB_MAPPING := List.mem_of_find?_eq_some hf
    have hall : ∀ q ∈ LOB_MAPPING, q.2 ∈ LOB_CATEGORIES := by decide
    simpa using hall p hp

/-- The report generator either degrades to two empty tables or
produces exactly the mapped query-1 rows and the concatenation of the
mapped query-2 and query-3 rows. -/
lemma connect_sf_and_query_cases (env : SFEnv) :
    connect_sf_and_query env = ([], []) ∨
    ∃ (r1 : List Q1Rec) (r2 : List Q2Rec) (r3 : List Q3Rec)
      (producer_names : List (String × String)),
      connect_sf_and_query env =
        (r1.map lob_row,
         r2.map (producer_row_q2 producer_names) ++ r3.map producer_row_q3) := by
  cases h1 : env.q1 with
  | error e =>
    refine Or.inl ?_
    unfold connect_sf_and_query
    rw [h1]
  | ok r1 =>
    cases h2 : env.q2 with
    | error e =>
      refine Or.inl ?_
      unfold connect_sf_and_query
      rw [h1]; dsimp only; rw [h2]
    | ok r2 =>
      cases h3 : env.q3 with
      | error e =>
        refine Or.inl ?_
        unfold connect_sf_and_query
        rw [h1]; dsimp only; rw [h2]; dsimp only; rw [h3]
      | ok r3 =>
        cases h4 : (get_producer_names env.producerLookup
            (gather_producer_ids r2)).1 with
        | error e =>
          refine Or.inl ?_
          unfold connect_sf_and_query
          rw [h1]; dsimp only; rw [h2]; dsimp only; rw [h3]; dsimp only
          rw [h4]
        | ok producer_names =>
          refine Or.inr ⟨r1, r2, r3, producer_names, ?_⟩
          unfold connect_sf_and_query
          rw [h1]; dsimp only; rw [h2]; dsimp only; rw [h3]; dsimp only
          rw [h4]

/-! ## Claim theorems -/

/-- C1: `map_lob` is a total function on strings: it always returns a
`String` (never fails, never returns an absence); on a key of
`LOB_MAPPING` it returns the mapped category, and on any string that is
not a key of `LOB_MAPPING` it returns the default category `"Other"`. -/
theorem map_lob_total (s : String) :
    (∀ v, (s, v) ∈ LOB_MAPPING → map_lob s = v) ∧
    (s ∉ LOB_MAPPING.map Prod.fst → map_lob s = "Other") := by
  constructor
  · intro v hv
    have hnd : (LOB_MAPPING.map Prod.fst).Nodup := by decide
    unfold map_lob
    rw [find?_key_eq_of_mem LOB_MAPPING s v hnd hv]
    rfl
  · intro hs
    unfold map_lob
    have hnone : LOB_MAPPING.find? (fun p => p.1 = s) = none := by
      rw [List.find?_eq_none]
      intro p hp
      simp only [decide_eq_true_eq]
      intro he
      exact hs (List.mem_map.mpr ⟨p, hp, he⟩)
    rw [hnone]
    rfl

/-- Witness for C1: the known key `"Yacht"` maps to its table entry
`"Boat"`, and the unknown string `"unknown-xyz"` maps to `"Other"`. -/
theorem map_lob_total_witness :
    (("Yacht", "Boat") ∈ LOB_MAPPING ∧ map_lob "Yacht" = "Boat") ∧
    ("unknown-xyz" ∉ LOB_MAPPING.map Prod.fst ∧
      map_lob "unknown-xyz" = "Other") :=
  ⟨⟨by decide, (map_lob_total "Yacht").1 "Boat" (by decide)⟩,
   ⟨by decide, (map_lob_total "unknown-xyz").2 (by decide)⟩⟩

/-- C9: the category mapper returns `"Homeowners"` for `"Homeowners"`,
`"Boat"` for `"Yacht"`, and `"Other"` for `"unknown-xyz"`. -/
theorem map_lob_examples :
    map_lob "Homeowners" = "Homeowners" ∧ map_lob "Yacht" = "Boat" ∧
    map_lob "unknown-xyz" = "Other" := by
  decide

/-- C7: on an empty identifier list the producer resolver returns the
empty mapping and performs zero external lookup calls, whatever the
backing lookup would answer. -/
theorem get_producer_names_empty
    (lookup : List String → Except String (List ProducerRec)) :
    get_producer_names lookup [] = (Except.ok [], 0) := rfl

/-- C6: the date filter of the three queries is inclusive of both UTC
day boundaries: for `start ≤ end` it accepts `start` at `00:00:00` UTC
and `end` at `23:59:59` UTC; and when `start = end` it accepts exactly
the timestamps of that single day, i.e. the full day
`[00:00:00, 23:59:59]` UTC. -/
theorem date_filter_inclusive :
    (∀ s e : SFDate, dateLE s e →
      date_filter s e (start_date_str s) ∧ date_filter s e (end_date_str e)) ∧
    (∀ (d : SFDate) (t : SFDateTime),
      t.hour ≤ 23 → t.minute ≤ 59 → t.second ≤ 59 →
      (date_filter d d t ↔
        t.year = d.year ∧ t.month = d.month ∧ t.day = d.day)) := by
  constructor
  · intro s e hse
    obtain ⟨sy, sm, sd⟩ := s
    obtain ⟨ey, em, ed⟩ := e
    simp only [dateLE] at hse
    simp only [date_filter, dtLE, start_date_str, end_date_str]
    simp
    omega
  · intro d t hh hm hs
    obtain ⟨dy, dm, dd⟩ := d
    obtain ⟨ty, tm, td, th, tmi, ts⟩ := t
    simp only at hh hm hs
    simp only [date_filter, dtLE, start_date_str, end_date_str]
    simp
    omega

/-- Witness for C6: with start = end = 2024-01-15, the filter accepts a
mid-day timestamp of that day and rejects midnight of the next day. -/
theorem date_filter_inclusive_witness :
    (dateLE ⟨2024, 1, 15⟩ ⟨2024, 1, 15⟩ ∧
      date_filter ⟨2024, 1, 15⟩ ⟨2024, 1, 15⟩ (start_date_str ⟨2024, 1, 15⟩)) ∧
    ((12 : Nat) ≤ 23 ∧ (30 : Nat) ≤ 59 ∧ (45 : Nat) ≤ 59 ∧
      date_filter ⟨2024, 1, 15⟩ ⟨2024, 1, 15⟩ ⟨2024, 1, 15, 12, 30, 45⟩) :=
  ⟨⟨by decide,
    ((date_filter_inclusive.1 ⟨2024, 1, 15⟩ ⟨2024, 1, 15⟩ (by decide)).1)⟩,
   ⟨by decide, by decide, by decide,
    ((date_filter_inclusive.2 ⟨2024, 1, 15⟩ ⟨2024, 1, 15, 12, 30, 45⟩
      (by decide) (by decide) (by decide)).mpr (by decide))⟩⟩

/-- C4: for every record of the batched lookup result (ids pairwise
distinct, as for rows of a `WHERE Id IN` query), the resolver maps its
id to the stripped concatenation `first ++ " " ++ last` of the name
components, substituting the sentinel `"Name Not Provided"` exactly
when that stripped concatenation is empty. -/
theorem get_producer_names_display (recs : List ProducerRec)
    (hnd : (recs.map (fun r => r.Id)).Nodup) :
    ∀ rec ∈ recs,
      dictFind? (build_producer_mapping recs) rec.Id =
        some (producer_full_name rec) ∧
      producer_full_name rec =
        (if pyStrip ((rec.InternalUser.getD ⟨none, none⟩).FirstName.getD ""
              ++ " " ++ (rec.InternalUser.getD ⟨none, none⟩).LastName.getD "") = ""
         then "Name Not Provided"
         else pyStrip ((rec.InternalUser.getD ⟨none, none⟩).FirstName.getD ""
              ++ " " ++ (rec.InternalUser.getD ⟨none, none⟩).LastName.getD "")) := by
  intro rec hrec
  refine ⟨?_, rfl⟩
  unfold build_producer_mapping
  rw [build_producer_mapping_eq_map recs [] hnd (by intro r _ p hp; cases hp),
      List.nil_append]
  unfold dictFind?
  rw [find?_key_eq_of_mem _ rec.Id (producer_full_name rec)
        (by simpa [List.map_map, Function.comp] using hnd)
        (List.mem_map.mpr ⟨rec, hrec, rfl⟩)]
  rfl

/-- Witness for C4: an id resolving to `first = ""`, `last = ""` maps
to `"Name Not Provided"`. -/
theorem get_producer_names_display_witness :
    (([⟨"P1", some ⟨some "", some ""⟩⟩] : List ProducerRec).map
        (fun r => r.Id)).Nodup ∧
    ⟨"P1", some ⟨some "", some ""⟩⟩ ∈
      ([⟨"P1", some ⟨some "", some ""⟩⟩] : List ProducerRec) ∧
    dictFind? (build_producer_mapping [⟨"P1", some ⟨some "", some ""⟩⟩]) "P1" =
      some "Name Not Provided" := by
  refine ⟨by decide, by decide, ?_⟩
  have h := (get_producer_names_display [⟨"P1", some ⟨some "", some ""⟩⟩]
      (by decide)) ⟨"P1", some ⟨some "", some ""⟩⟩ (by decide)
  rw [h.1]
  decide

/-- C5: producer ids the backing lookup does not return are absent from
the resolver's output mapping; and end to end, a query-2 row for
producer `"P1"` of type `"Boat"` with count 3 combined with a resolver
that resolves nothing yields the ProducerReport row with the sentinel
producer name, category `"Boat"` and count 3. -/
theorem unresolvable_producer_sentinel :
    (∀ (recs : List ProducerRec) (pid : String),
      pid ∉ recs.map (fun r => r.Id) →
      dictFind? (build_producer_mapping recs) pid = none) ∧
    connect_sf_and_query envUnresolvedProducer =
      ([], [{ Producer := "Name Not Provided", TypeField := "Boat",
              LOB_Category := "Boat", Count := 3 }]) := by
  constructor
  · intro recs pid hpid
    unfold dictFind?
    rw [List.find?_eq_none.mpr]
    · rfl
    intro p hp
    simp only [decide_eq_true_eq]
    intro he
    rcases build_producer_mapping_keys recs [] p hp with h0 | hk
    · simp at h0
    · exact hpid (he ▸ hk)
  · decide

/-- Witness for C5: a concrete id absent from a one-record lookup
result is absent from the mapping. -/
theorem unresolvable_producer_sentinel_witness :
    ("P2" ∉ ([⟨"P1", none⟩] : List ProducerRec).map (fun r => r.Id)) ∧
    dictFind? (build_producer_mapping [⟨"P1", none⟩]) "P2" = none :=
  ⟨by decide,
   unresolvable_producer_sentinel.1 [⟨"P1", none⟩] "P2" (by decide)⟩

/-- C3: if any of the three aggregation queries raises, or the producer
lookup is issued and raises, report generation returns two empty
tables — never a partial mix of the succeeding queries' data. -/
theorem query_failure_empty_tables (env : SFEnv)
    (h : (∃ err, env.q1 = Except.error err) ∨
         (∃ err, env.q2 = Except.error err) ∨
         (∃ err, env.q3 = Except.error err) ∨
         (∃ r2 err, env.q2 = Except.ok r2 ∧
           (get_producer_names env.producerLookup (gather_producer_ids r2)).1 =
             Except.error err)) :
    connect_sf_and_query env = ([], []) := by
  unfold connect_sf_and_query
  rcases h with ⟨e, he⟩ | ⟨e, he⟩ | ⟨e, he⟩ | ⟨r2, e, h2, he⟩
  · rw [he]
  · cases h1 : env.q1 with
    | error _ => rfl
    | ok r1 => rw [he]
  · cases h1 : env.q1 with
    | error _ => rfl
    | ok r1 =>
      cases h2 : env.q2 with
      | error _ => rfl
      | ok r2 => rw [he]
  · cases h1 : env.q1 with
    | error _ => rfl
    | ok r1 =>
      rw [h2]
      cases h3 : env.q3 with
      | error _ => rfl
      | ok r3 =>
        dsimp only
        rw [he]

/-- Witness for C3: a run whose first query raises returns two empty
tables. -/
theorem query_failure_empty_tables_witness :
    connect_sf_and_query envQuery1Failure = ([], []) :=
  query_failure_empty_tables envQuery1Failure (Or.inl ⟨"boom", rfl⟩)

/-- C2: for every query-1 result set, summing the counts of the
LOBReport grouped by normalized category gives the sum of the raw
query-1 counts: mapping each row through the category mapper conserves
the total count. -/
theorem lob_counts_conserved (type_results : List Q1Rec) :
    ((grouped_lob (type_results.map lob_row)).map (fun g => g.2)).sum =
      (type_results.map (fun rec => rec.oppCount.getD 0)).sum := by
  unfold grouped_lob
  rw [List.map_map]
  have h := sum_map_groups (fun r : LOBRow => r.LOB_Category)
      (fun r => r.Count)
      ((type_results.map lob_row).map (fun r => r.LOB_Category)).dedup
      (type_results.map lob_row) (List.nodup_dedup _)
      (fun a ha => List.mem_dedup.mpr (List.mem_map_of_mem _ ha))
  rw [show ((fun g : String × Nat => g.2) ∘ fun c =>
        (c, (((type_results.map lob_row).filter
          (fun r => r.LOB_Category = c)).map (fun r => r.Count)).sum)) =
      fun c => (((type_results.map lob_row).filter
          (fun r => r.LOB_Category = c)).map (fun r => r.Count)).sum from rfl]
  rw [h, List.map_map]
  rfl

/-- C8: when all three queries and the producer lookup succeed, the
ProducerReport is exactly the query-2 rows (resolved display name with
sentinel fallback) followed by the query-3 rows; and each query-3 row
uses its denormalized owner display name directly (sentinel if the
`Owner` relationship is missing), applies the category mapper to its
raw type, and has the same {Producer, Type, Category, Count} shape. -/
theorem producer_report_concat (env : SFEnv)
    (r1 : List Q1Rec) (r2 : List Q2Rec) (r3 : List Q3Rec)
    (producer_names : List (String × String))
    (h1 : env.q1 = Except.ok r1) (h2 : env.q2 = Except.ok r2)
    (h3 : env.q3 = Except.ok r3)
    (h4 : (get_producer_names env.producerLookup (gather_producer_ids r2)).1 =
            Except.ok producer_names) :
    (connect_sf_and_query env).2 =
      r2.map (producer_row_q2 producer_names) ++ r3.map producer_row_q3 ∧
    ∀ rec ∈ r3, producer_row_q3 rec =
      { Producer := (rec.Owner.getD { Name := none }).Name.getD "Name Not Provided"
        TypeField := rec.TypeField.getD "Other"
        LOB_Category := map_lob (rec.TypeField.getD "Other")
        Count := rec.oppCount.getD 0 } := by
  refine ⟨?_, fun rec _ => rfl⟩
  unfold connect_sf_and_query
  rw [h1]; dsimp only; rw [h2]; dsimp only; rw [h3]; dsimp only; rw [h4]

/-- Witness for C8: a run with one query-2 row (producer resolving to
"Jane Doe") and one query-3 row (owner "Alice Smith") produces exactly
those two ProducerReport rows in that order. -/
theorem producer_report_concat_witness :
    envMixedRows.q1 = Except.ok [] ∧
    (connect_sf_and_query envMixedRows).2 =
      [{ Producer := "Jane Doe", TypeField := "Yacht", LOB_Category := "Boat",
         Count := 2 },
       { Producer := "Alice Smith", TypeField := "Life",
         LOB_Category := "Other", Count := 1 }] := by
  refine ⟨rfl, ?_⟩
  have h := producer_report_concat envMixedRows []
      [{ Producer__c := some "P9", TypeField := some "Yacht",
         oppCount := some 2 }]
      [{ Owner := some { Name := some "Alice Smith" },
         TypeField := some "Life", oppCount := some 1 }]
      (build_producer_mapping
        [{ Id := "P9", InternalUser := some { FirstName := some "Jane",
                                              LastName := some "Doe" } }])
      rfl rfl rfl rfl
  rw [h.1]
  decide

/-- C10: every row of either output table carries a normalized category
among the seven values "Homeowners", "Personal Auto", "Boat",
"Umbrella", "Inland Marine", "Commercial", "Other", whatever raw types
the queries return. -/
theorem output_categories_closed (env : SFEnv) :
    (∀ row ∈ (connect_sf_and_query env).1, row.LOB_Category ∈ LOB_CATEGORIES) ∧
    (∀ row ∈ (connect_sf_and_query env).2, row.LOB_Category ∈ LOB_CATEGORIES) := by
  rcases connect_sf_and_query_cases env with h | ⟨r1, r2, r3, producer_names, h⟩
  · rw [h]
    exact ⟨fun row hrow => absurd hrow (List.not_mem_nil row),
           fun row hrow => absurd hrow (List.not_mem_nil row)⟩
  · rw [h]
    constructor
    · intro row hrow
      obtain ⟨rec, _, hrec⟩ := List.mem_map.mp hrow
      rw [← hrec]
      exact map_lob_mem_categories _
    · intro row hrow
      rcases List.mem_append.mp hrow with hmem | hmem
      · obtain ⟨rec, _, hrec⟩ := List.mem_map.mp hmem
        rw [← hrec]
        exact map_lob_mem_categories _
      · obtain ⟨rec, _, hrec⟩ := List.mem_map.mp hmem
        rw [← hrec]
        exact map_lob_mem_categories _

/-- Witness for C10: the single LOBReport row of a concrete run has its
category among the seven values. -/
theorem output_categories_closed_witness :
    ({ TypeField := "Yacht", LOB_Category := "Boat", Count := 1 } : LOBRow) ∈
      (connect_sf_and_query envSingleLOBRow).1 ∧
    ({ TypeField := "Yacht", LOB_Category := "Boat",
       Count := 1 } : LOBRow).LOB_Category ∈ LOB_CATEGORIES :=
  ⟨by decide,
   (output_categories_closed envSingleLOBRow).1 _ (by decide)⟩

end OppAnalysis
